import Mathlib

/-!
Verification of the RTI filing backend against its specification.

The definitions below are a shallow embedding of the Python sources:
  backend/agents/routing_agent.py  (alias resolution, tiered PIO routing, fee)
  backend/agents/appeal_agent.py   (escalation decision table, template fallback)
  backend/agents/query_agent.py    (deterministic fallback analysis)
  backend/utils/database.py        (reference number generation)
Dictionaries become association lists preserving insertion order, dict.get
becomes Option lookup, Python truthiness of optional values is made explicit,
and wall-clock quantities (elapsed days, the current year, the appeal date
string) are passed as parameters.  Paths that raise in Python (IndexError on
an empty central directory) are modelled by Option results.
-/

namespace RTI

/-- Association-list lookup, modelling Python dict.get: first (and in a dict,
only) binding of the key. -/
def lookupA {α : Type} (l : List (String × α)) (k : String) : Option α :=
  (l.find? (fun p => p.1 == k)).map (fun p => p.2)

/-- Python truthiness of an optional boolean field (dict.get on a missing key
yields None, which is falsy). -/
def optTruthy (o : Option Bool) : Bool :=
  o.getD false

/-- Python str.lower (ASCII model), computed characterwise so it evaluates in
the kernel. -/
def pyLower (s : String) : String :=
  String.mk (s.data.map Char.toLower)

/-- Python str.strip: leading and trailing whitespace removed. -/
def pyStrip (s : String) : String :=
  String.mk (((s.data.dropWhile Char.isWhitespace).reverse.dropWhile
      Char.isWhitespace).reverse)

/-- Python substring containment needle in hay: some suffix of hay starts
with the needle (the empty needle is contained in everything). -/
def pySubstr (needle hay : String) : Bool :=
  hay.data.tails.any (fun t => needle.data.isPrefixOf t)

/-- Python str.startswith. -/
def pyStarts (s pre : String) : Bool :=
  pre.data.isPrefixOf s.data

/-- One step of Python str.title: a cased character starting a run is
uppercased, subsequent cased characters are lowercased (ASCII model). -/
def titleAux : Bool → List Char → List Char
  | _, [] => []
  | prevAlpha, c :: cs =>
      (if c.isAlpha then (if prevAlpha then c.toLower else c.toUpper) else c)
        :: titleAux c.isAlpha cs

/-- Python str.title on a whole string. -/
def pyTitle (s : String) : String :=
  String.mk (titleAux false s.data)

/-- STATE_SUBJECTS from routing_agent.py line 20: the region-local categories. -/
def STATE_SUBJECTS : List String :=
  ["food_ration", "electricity", "water", "housing", "road_infrastructure"]

/-- STATE_ALIASES from routing_agent.py lines 22 to 58, in source insertion
order (iteration order matters for the substring extraction backup). -/
def STATE_ALIASES : List (String × String) :=
  [("kerala", "Kerala"), ("thiruvananthapuram", "Kerala"), ("trivandrum", "Kerala"),
   ("kochi", "Kerala"), ("ernakulam", "Kerala"), ("kozhikode", "Kerala"),
   ("calicut", "Kerala"), ("thrissur", "Kerala"), ("kollam", "Kerala"),
   ("malappuram", "Kerala"), ("palakkad", "Kerala"), ("kannur", "Kerala"),
   ("kasaragod", "Kerala"), ("alappuzha", "Kerala"), ("alleppey", "Kerala"),
   ("wayanad", "Kerala"), ("idukki", "Kerala"), ("kottayam", "Kerala"),
   ("pathanamthitta", "Kerala"),
   ("tamil nadu", "Tamil Nadu"), ("tamilnadu", "Tamil Nadu"),
   ("chennai", "Tamil Nadu"), ("madras", "Tamil Nadu"), ("coimbatore", "Tamil Nadu"),
   ("madurai", "Tamil Nadu"), ("trichy", "Tamil Nadu"), ("salem", "Tamil Nadu"),
   ("tn", "Tamil Nadu"),
   ("karnataka", "Karnataka"), ("bengaluru", "Karnataka"), ("bangalore", "Karnataka"),
   ("mysuru", "Karnataka"), ("mysore", "Karnataka"), ("hubli", "Karnataka"),
   ("mangalore", "Karnataka"), ("mangaluru", "Karnataka"),
   ("delhi", "Delhi"), ("new delhi", "Delhi"),
   ("maharashtra", "Maharashtra"), ("mumbai", "Maharashtra"), ("pune", "Maharashtra"),
   ("nagpur", "Maharashtra"), ("thane", "Maharashtra"), ("nashik", "Maharashtra"),
   ("uttar pradesh", "Uttar Pradesh"), ("up", "Uttar Pradesh"),
   ("lucknow", "Uttar Pradesh"), ("noida", "Uttar Pradesh"), ("agra", "Uttar Pradesh"),
   ("kanpur", "Uttar Pradesh"), ("varanasi", "Uttar Pradesh"),
   ("prayagraj", "Uttar Pradesh"),
   ("west bengal", "West Bengal"), ("wb", "West Bengal"),
   ("kolkata", "West Bengal"), ("calcutta", "West Bengal"),
   ("rajasthan", "Rajasthan"), ("jaipur", "Rajasthan"), ("jodhpur", "Rajasthan"),
   ("gujarat", "Gujarat"), ("ahmedabad", "Gujarat"), ("surat", "Gujarat"),
   ("vadodara", "Gujarat"), ("rajkot", "Gujarat"),
   ("andhra pradesh", "Andhra Pradesh"), ("telangana", "Telangana"),
   ("hyderabad", "Telangana"), ("madhya pradesh", "Madhya Pradesh"),
   ("bhopal", "Madhya Pradesh"), ("indore", "Madhya Pradesh"),
   ("bihar", "Bihar"), ("patna", "Bihar"),
   ("punjab", "Punjab"), ("chandigarh", "Punjab"), ("amritsar", "Punjab"),
   ("haryana", "Haryana"), ("gurugram", "Haryana"), ("faridabad", "Haryana"),
   ("assam", "Assam"), ("guwahati", "Assam"),
   ("odisha", "Odisha"), ("bhubaneswar", "Odisha"),
   ("jharkhand", "Jharkhand"), ("ranchi", "Jharkhand"),
   ("uttarakhand", "Uttarakhand"), ("dehradun", "Uttarakhand"),
   ("goa", "Goa"), ("chhattisgarh", "Chhattisgarh"), ("raipur", "Chhattisgarh")]

/-- One office entry of the PIO directory (a JSON object in
pio_directory.json): identifier, department display name, category tags and
an optional portal URL. -/
structure PioRecord where
  id : String
  department : String
  categories : List String
  portal : Option String
  deriving DecidableEq

/-- The PIO directory: a state table keyed by canonical region name, and a
list of central offices, both in file order. -/
structure PioDirectory where
  state : List (String × List PioRecord)
  central : List PioRecord

/-- Per-category configuration from departments.json: keyword list and an
optional dedicated central PIO id. -/
structure CategoryInfo where
  keywords : List String
  central_pio_id : Option String
  deriving DecidableEq

/-- departments.json: category configuration plus the general filing fee
(absent key modelled as none, read with default 10 by the code). -/
structure Departments where
  categories : List (String × CategoryInfo)
  filing_fee_general : Option Nat

/-- The _normalize_state function of routing_agent.py lines 61 to 76.  The
PIO directory global is passed explicitly.  An empty (falsy) input returns
the Delhi default; then the alias table, an exact title-cased directory key,
and a case-insensitive directory key are tried in order; otherwise the
title-cased input passes through. -/
def _normalize_state (dir : PioDirectory) (raw : String) : String :=
  if raw = "" then "Delhi"
  else
    let key := pyLower (pyStrip raw)
    match lookupA STATE_ALIASES key with
    | some normalized => normalized
    | none =>
      let title := pyTitle (pyStrip raw)
      if (dir.state.map Prod.fst).contains title then title
      else
        match dir.state.find? (fun p => pyLower p.1 == key) with
        | some p => p.1
        | none => title

/-- The extracted_info sub-object of a query analysis; only fields the routed
code reads are modelled, each optional like a dict key. -/
structure ExtractedInfo where
  what_is_needed : Option String := none
  time_period : Option String := none
  location : Option String := none
  specific_issue : Option String := none
  deriving DecidableEq

/-- A query-analysis dict as produced by the query agent (query_agent.py) and
consumed by RoutingAgent.route; every key is optional. -/
structure QueryAnalysis where
  original_question : Option String := none
  detected_language : Option String := none
  subject : Option String := none
  category : Option String := none
  extracted_info : Option ExtractedInfo := none
  suggested_questions : Option (List String) := none
  urgency : Option String := none
  is_valid_rti : Option Bool := none
  error : Option String := none
  is_bpl : Option Bool := none
  deriving DecidableEq

/-- The _fallback_response function of query_agent.py lines 24 to 45: the
deterministic analysis used when the external generator fails.  Note it sets
no is_bpl key. -/
def _fallback_response (citizen_question error : String) : QueryAnalysis :=
  { original_question := some citizen_question
    detected_language := some "english"
    subject := some "Request for Government Information"
    category := some "other"
    extracted_info := some
      { what_is_needed := some citizen_question
        time_period := some "last 3 years"
        location := some "Not specified"
        specific_issue := some citizen_question }
    suggested_questions := some
      ["Please provide complete information regarding: " ++ citizen_question,
       "Please provide the names and designations of officials responsible for the matter.",
       "Please provide copies of relevant documents, orders, and correspondence related to the matter."]
    urgency := some "medium"
    is_valid_rti := some true
    error := some error
    is_bpl := none }

/-- The _extract_state_from_question method of routing_agent.py lines 107 to
113: scan question plus location, lowercased, for the first alias table key
occurring as a substring; empty string when none is found. -/
def _extract_state_from_question (question location : String) : String :=
  let combined := pyLower (question ++ " " ++ location)
  match STATE_ALIASES.find? (fun p => pySubstr p.1 combined) with
  | some p => p.2
  | none => ""

/-- The lowercased keyword list of a category, from the departments
configuration (routing_agent.py line 117). -/
def keywordsOf (deps : Departments) (category : String) : List String :=
  (((lookupA deps.categories category).map CategoryInfo.keywords).getD []).map pyLower

/-- The central_pio_id configured for a category, empty string when missing
(Python falsiness of dept_info.get, routing_agent.py line 118). -/
def centralIdOf (deps : Departments) (category : String) : String :=
  ((lookupA deps.categories category).bind CategoryInfo.central_pio_id).getD ""

/-- The joined lowercased category-tag string of an office
(routing_agent.py lines 125 and 136). -/
def joinedCats (pio : PioRecord) : String :=
  String.intercalate " " (pio.categories.map pyLower)

/-- The office/category match used in the state tier (routing_agent.py line
126): some configured keyword occurs in the joined tag string, or the
category name itself does. -/
def catsMatch (keywords : List String) (category : String) (pio : PioRecord) : Bool :=
  keywords.any (fun kw => pySubstr kw (joinedCats pio)) || pySubstr category (joinedCats pio)

/-- The fixed category to central-office-id fallback map of routing_agent.py
lines 140 to 145. -/
def fallback_map : List (String × String) :=
  [("food_ration", "C009"), ("health", "C002"), ("education", "C003"),
   ("road_infrastructure", "C004"), ("postal", "C005"), ("income_tax", "C006"),
   ("employment", "C007"), ("lpg_petroleum", "C008"), ("housing", "C010"),
   ("railways", "C001")]

/-- The central tiers of _find_pio (routing_agent.py lines 130 to 151):
configured central id, then keyword scan of central offices, then the fixed
fallback map (default C009), then the first central office.  The final
indexing raises IndexError on an empty central list in Python, modelled by
head? returning none. -/
def centralTiers (dir : PioDirectory) (deps : Departments) (category : String) :
    Option PioRecord :=
  (if centralIdOf deps category ≠ "" then
     dir.central.find? (fun pio => pio.id == centralIdOf deps category)
   else none)
  <|> dir.central.find?
        (fun pio => (keywordsOf deps category).any (fun kw => pySubstr kw (joinedCats pio)))
  <|> dir.central.find?
        (fun pio => pio.id == ((lookupA fallback_map category).getD "C009"))
  <|> dir.central.head?

/-- The state office list of a jurisdiction, empty when the key is absent
(routing_agent.py line 121). -/
def statePios (dir : PioDirectory) (state : String) : List PioRecord :=
  (lookupA dir.state state).getD []

/-- The _find_pio method of routing_agent.py lines 115 to 151.  For a
region-local category with a non-empty state office list, the first
keyword-matching state office is returned, else the first state office; the
state tier never falls through to the central tiers when the state list is
non-empty. -/
def _find_pio (dir : PioDirectory) (deps : Departments) (category state : String) :
    Option PioRecord :=
  if STATE_SUBJECTS.contains category ∧ statePios dir state ≠ [] then
    match (statePios dir state).find? (catsMatch (keywordsOf deps category) category) with
    | some pio => some pio
    | none => (statePios dir state).head?
  else
    centralTiers dir deps category

/-- The state resolution at the start of RoutingAgent.route (routing_agent.py
lines 82 to 91): normalize the user state; if the result is not a key of the
state table, try to extract a state from the question text and the extracted
location, keeping the normalized value when extraction returns the empty
string. -/
def resolved_state (dir : PioDirectory) (qa : QueryAnalysis) (user_state : String) :
    String :=
  let state := _normalize_state dir user_state
  if (dir.state.map Prod.fst).contains state then state
  else
    let extracted := _extract_state_from_question (qa.original_question.getD "")
      ((qa.extracted_info.bind ExtractedInfo.location).getD "")
    if extracted ≠ "" then extracted else state

/-- The routing decision dict returned by RoutingAgent.route. -/
structure RoutingDecision where
  pio : PioRecord
  department : String
  filing_url : String
  category : String
  jurisdiction : String
  filing_fee : Nat
  deriving DecidableEq

/-- The RoutingAgent.route method (routing_agent.py lines 80 to 105).  The
directory and departments globals are passed explicitly; none models the
IndexError Python would raise when every tier fails on an empty central
directory. -/
def route (dir : PioDirectory) (deps : Departments) (qa : QueryAnalysis)
    (user_state : String) : Option RoutingDecision :=
  let category := qa.category.getD "other"
  let state := resolved_state dir qa user_state
  (_find_pio dir deps category state).map (fun pio =>
    { pio := pio
      department := pio.department
      filing_url := pio.portal.getD "https://rtionline.gov.in"
      category := category
      jurisdiction := if pyStarts pio.id "C" then "central" else "state"
      filing_fee := if optTruthy qa.is_bpl then 0 else deps.filing_fee_general.getD 10 })

/-- The rti_record dict handed to AppealAgent.check_and_appeal (built in
main.py lines 291 to 299); every key is optional. -/
structure RTIRecord where
  ref_number : Option String := none
  status : Option String := none
  filed_at : Option String := none
  department : Option String := none
  subject : Option String := none
  applicant_name : Option String := none
  appeal_filed : Option Bool := none
  deriving DecidableEq

/-- The decision dict returned by AppealAgent.check_and_appeal: action tag,
optional day counts, optional generated appeal draft, and a message. -/
structure EscalationDecision where
  action : String
  days_elapsed : Option Int := none
  days_remaining : Option Int := none
  appeal_draft : Option String := none
  message : String
  deriving DecidableEq

/-- Modelled from the spec: the file backend/data/rti_templates.json
(first_appeal_template body) is not under src.  Per the spec it is a
deterministic First Appeal letter under Section 19(1) of the RTI Act 2005,
filled from the record fields.  Python str.format substitutes each named
field into the literal segments of the template; that substitution is
embedded here directly as segment concatenation, with the seven fields the
code supplies (appeal_agent.py lines 84 to 93). -/
def first_appeal_fill (department_name department_address applicant_name
    rti_date ref_number subject appeal_date : String) : String :=
  "To,\nThe First Appellate Authority,\n" ++ department_name ++ ",\n" ++
  department_address ++
  "\n\nSubject: First Appeal under Section 19(1) of the RTI Act 2005 regarding " ++
  subject ++
  "\n\nRespected Sir or Madam,\n\nI, " ++ applicant_name ++
  ", filed an RTI application with reference number " ++ ref_number ++
  " on " ++ rti_date ++
  ". No response has been received within the 30 days mandated by Section 7(1) " ++
  "of the RTI Act 2005. I hereby file this First Appeal under Section 19(1) " ++
  "and request action under Section 18(1)(b).\n\nDate: " ++ appeal_date ++
  "\n\nYours faithfully,\n" ++ applicant_name

/-- The AppealAgent.generate_first_appeal method (appeal_agent.py lines 63 to
93).  The external generator call is modelled by its outcome: some text when
the call succeeds (the code strips it), none when any exception is raised, in
which case the deterministic template is filled from the record fields with
the documented defaults.  appeal_date models the formatted current date. -/
def generate_first_appeal (gen : Option String) (appeal_date : String)
    (record : RTIRecord) : String :=
  match gen with
  | some text => pyStrip text
  | none =>
      first_appeal_fill (record.department.getD "Concerned Department") "India"
        (record.applicant_name.getD "Applicant")
        (String.mk ((record.filed_at.getD "").data.take 10))
        (record.ref_number.getD "")
        (record.subject.getD "the matter")
        appeal_date

/-- The AppealAgent.check_and_appeal method (appeal_agent.py lines 31 to 61).
days_elapsed models the integer day difference the code computes from
filed_at and the current time; gen and appeal_date parametrize the external
generator outcome and current date exactly as in generate_first_appeal. -/
def check_and_appeal (gen : Option String) (appeal_date : String)
    (record : RTIRecord) (days_elapsed : Int) : EscalationDecision :=
  let status := record.status.getD "filed"
  if status = "response_received" then
    { action := "none", message := "RTI already responded to." }
  else if 30 ≤ days_elapsed ∧ optTruthy record.appeal_filed = false then
    { action := "first_appeal"
      days_elapsed := some days_elapsed
      appeal_draft := some (generate_first_appeal gen appeal_date record)
      message := "30 days have passed. First Appeal generated automatically." }
  else if 25 ≤ days_elapsed then
    { action := "reminder"
      days_elapsed := some days_elapsed
      days_remaining := some (30 - days_elapsed)
      message := "Reminder: " ++ toString (30 - days_elapsed) ++
        " days remaining for PIO response." }
  else
    { action := "waiting"
      days_elapsed := some days_elapsed
      days_remaining := some (30 - days_elapsed)
      message := "Waiting for response. " ++ toString (30 - days_elapsed) ++
        " days remaining." }

/-- Zero padding of a natural number to width five, modelling the Python
format specifier 05d in database.py line 95. -/
def pad5 (n : Nat) : String :=
  String.mk (List.replicate (5 - (toString n).length) '0') ++ toString n

/-- The generate_ref_number function of database.py lines 91 to 95.  The
store state is modelled by its record count and the clock by the current
year, the two quantities the code reads. -/
def generate_ref_number (year count : Nat) : String :=
  "RTI" ++ toString year ++ "-" ++ pad5 (count + 1)

/-- Modelled from the spec: the directory file backend/data/pio_directory.json
is not under src.  Its state table is keyed by the canonical region names the
alias table targets; this list enumerates those canonical names (the distinct
values of STATE_ALIASES). -/
def canonicalStateNames : List String :=
  ["Kerala", "Tamil Nadu", "Karnataka", "Delhi", "Maharashtra", "Uttar Pradesh",
   "West Bengal", "Rajasthan", "Gujarat", "Andhra Pradesh", "Telangana",
   "Madhya Pradesh", "Bihar", "Punjab", "Haryana", "Assam", "Odisha",
   "Jharkhand", "Uttarakhand", "Goa", "Chhattisgarh"]

/-- Modelled from the spec: a concrete instance of the missing
backend/data/pio_directory.json, per the spec examples — a state table keyed
by canonical region names (Kerala carrying a rations office) and central
offices with C-prefixed identifiers (railways C001, food C009). -/
def modelledDirectory : PioDirectory :=
  { state :=
      [("Kerala",
        [{ id := "KL-FCS-01"
           department := "Kerala Food and Civil Supplies Department"
           categories := ["Ration", "PDS", "Food Security"]
           portal := some "https://foodsafety.kerala.gov.in" },
         { id := "KL-PWD-01"
           department := "Kerala Public Works Department"
           categories := ["Roads", "Bridges"]
           portal := none }]),
       ("Delhi",
        [{ id := "DL-FS-01"
           department := "Delhi Food Supplies and Consumer Affairs"
           categories := ["Ration", "PDS"]
           portal := none }])]
    central :=
      [{ id := "C001"
         department := "Ministry of Railways"
         categories := ["Railways", "Trains", "IRCTC"]
         portal := some "https://rtionline.gov.in" },
       { id := "C009"
         department := "Department of Food and Public Distribution"
         categories := ["Food", "Ration", "PDS"]
         portal := none }] }

/-- Modelled from the spec: a concrete instance of the missing
backend/data/departments.json — category keyword configuration and the
general filing fee of 10 named by the spec. -/
def modelledDepartments : Departments :=
  { categories :=
      [("food_ration",
        { keywords := ["ration", "PDS", "food"], central_pio_id := some "C009" }),
       ("railways",
        { keywords := ["railway", "train"], central_pio_id := some "C001" })]
    filing_fee_general := some 10 }

/-- Unfolding of route into state resolution, office lookup and decision
assembly. -/
theorem route_eq (dir : PioDirectory) (deps : Departments) (qa : QueryAnalysis)
    (user_state : String) :
    route dir deps qa user_state =
      (_find_pio dir deps (qa.category.getD "other")
          (resolved_state dir qa user_state)).map (fun pio =>
        { pio := pio
          department := pio.department
          filing_url := pio.portal.getD "https://rtionline.gov.in"
          category := qa.category.getD "other"
          jurisdiction := if pyStarts pio.id "C" then "central" else "state"
          filing_fee := if optTruthy qa.is_bpl then 0
                        else deps.filing_fee_general.getD 10 }) :=
  rfl

/-- Every office in the state list of a jurisdiction belongs to some entry of
the directory state table. -/
theorem statePios_subset (dir : PioDirectory) (state : String) (pio : PioRecord)
    (h : pio ∈ statePios dir state) :
    ∃ pr ∈ dir.state, pio ∈ pr.2 := by
  unfold statePios lookupA at h
  rcases hf : dir.state.find? (fun p => p.1 == state) with _ | pr
  · rw [hf] at h
    simp at h
  · rw [hf] at h
    simp only [Option.map_some', Option.getD_some] at h
    exact ⟨pr, List.mem_of_find?_eq_some hf, h⟩

/-- The central tiers always deliver an office of the central list when that
list is non-empty. -/
theorem centralTiers_mem (dir : PioDirectory) (deps : Departments)
    (category : String) (hc : dir.central ≠ []) :
    ∃ pio, centralTiers dir deps category = some pio ∧ pio ∈ dir.central := by
  unfold centralTiers
  rcases h1 : (if centralIdOf deps category ≠ "" then
      dir.central.find? (fun pio => pio.id == centralIdOf deps category)
    else none) with _ | p
  · simp only [h1, Option.none_orElse]
    rcases h2 : dir.central.find?
        (fun pio => (keywordsOf deps category).any
          (fun kw => pySubstr kw (joinedCats pio))) with _ | p
    · simp only [h2, Option.none_orElse]
      rcases h3 : dir.central.find?
          (fun pio => pio.id == ((lookupA fallback_map category).getD "C009")) with _ | p
      · simp only [h3, Option.none_orElse]
        rcases hl : dir.central with _ | ⟨a, t⟩
        · exact absurd hl hc
        · exact ⟨a, rfl, List.mem_cons_self a t⟩
      · refine ⟨p, ?_, List.mem_of_find?_eq_some h3⟩
        simp only [h3, Option.some_orElse]
    · refine ⟨p, ?_, List.mem_of_find?_eq_some h2⟩
      simp only [h2, Option.some_orElse]
  · have hp : p ∈ dir.central := by
      by_cases hid : centralIdOf deps category ≠ ""
      · rw [if_pos hid] at h1
        exact List.mem_of_find?_eq_some h1
      · rw [if_neg hid] at h1
        exact absurd h1 (by simp)
    refine ⟨p, ?_, hp⟩
    simp only [h1, Option.some_orElse]

/-- _find_pio always delivers an office drawn from the directory when the
central list is non-empty. -/
theorem find_pio_mem (dir : PioDirectory) (deps : Departments)
    (category state : String) (hc : dir.central ≠ []) :
    ∃ pio, _find_pio dir deps category state = some pio ∧
      (pio ∈ dir.central ∨ ∃ pr ∈ dir.state, pio ∈ pr.2) := by
  unfold _find_pio
  by_cases hst : STATE_SUBJECTS.contains category = true ∧ statePios dir state ≠ []
  · rw [if_pos hst]
    rcases hfind : (statePios dir state).find?
        (catsMatch (keywordsOf deps category) category) with _ | q
    · rcases hl : statePios dir state with _ | ⟨a, t⟩
      · exact absurd hl hst.2
      · exact ⟨a, rfl, Or.inr (statePios_subset dir state a
          (by rw [hl]; exact List.mem_cons_self a t))⟩
    · exact ⟨q, rfl, Or.inr (statePios_subset dir state q
        (List.mem_of_find?_eq_some hfind))⟩
  · rw [if_neg hst]
    obtain ⟨p, hp, hmem⟩ := centralTiers_mem dir deps category hc
    exact ⟨p, hp, Or.inl hmem⟩

/-- The fee field of any routing decision is determined by the is_bpl key of
the query analysis and the configured general fee. -/
theorem route_fee (dir : PioDirectory) (deps : Departments) (qa : QueryAnalysis)
    (user_state : String) (dec : RoutingDecision)
    (h : route dir deps qa user_state = some dec) :
    dec.filing_fee = if optTruthy qa.is_bpl then 0
                     else deps.filing_fee_general.getD 10 := by
  rw [route_eq] at h
  obtain ⟨pio, -, hdec⟩ := Option.map_eq_some'.mp h
  rw [← hdec]

/-- Claim C1: check_and_appeal implements the escalation decision table: a
responded record gets action none; otherwise 30 or more elapsed days with the
appeal flag unset gives first_appeal carrying the elapsed-day count; 25 to 29
days gives reminder; under 25 days gives waiting. -/
theorem escalation_decision_table (gen : Option String) (ad : String)
    (record : RTIRecord) (d : Int) :
    (record.status.getD "filed" = "response_received" →
      (check_and_appeal gen ad record d).action = "none")
    ∧ (record.status.getD "filed" ≠ "response_received" → 30 ≤ d →
        optTruthy record.appeal_filed = false →
        (check_and_appeal gen ad record d).action = "first_appeal" ∧
        (check_and_appeal gen ad record d).days_elapsed = some d)
    ∧ (record.status.getD "filed" ≠ "response_received" → 25 ≤ d → d < 30 →
        (check_and_appeal gen ad record d).action = "reminder")
    ∧ (record.status.getD "filed" ≠ "response_received" → d < 25 →
        (check_and_appeal gen ad record d).action = "waiting") := by
  refine ⟨fun hs => ?_, fun hs h30 ha => ?_, fun hs h25 h30 => ?_, fun hs h25 => ?_⟩
  · simp [check_and_appeal, hs]
  · simp [check_and_appeal, hs, h30, ha]
  · simp [check_and_appeal, hs, h25, show ¬ (30 ≤ d) from by omega]
  · simp [check_and_appeal, hs, show ¬ (30 ≤ d) from by omega,
      show ¬ (25 ≤ d) from by omega]

/-- Witness for C1: the day sequence 0, 10, 24, 25, 29, 30 on an unanswered,
unappealed record yields waiting, waiting, waiting, reminder, reminder,
first_appeal. -/
theorem escalation_decision_table_witness :
    (check_and_appeal none "05 October 2025"
      { status := some "filed", appeal_filed := some false } 0).action = "waiting"
    ∧ (check_and_appeal none "05 October 2025"
        { status := some "filed", appeal_filed := some false } 10).action = "waiting"
    ∧ (check_and_appeal none "05 October 2025"
        { status := some "filed", appeal_filed := some false } 24).action = "waiting"
    ∧ (check_and_appeal none "05 October 2025"
        { status := some "filed", appeal_filed := some false } 25).action = "reminder"
    ∧ (check_and_appeal none "05 October 2025"
        { status := some "filed", appeal_filed := some false } 29).action = "reminder"
    ∧ (check_and_appeal none "05 October 2025"
        { status := some "filed", appeal_filed := some false } 30).action = "first_appeal" := by
  have h := fun d => escalation_decision_table none "05 October 2025"
    { status := some "filed", appeal_filed := some false } d
  exact ⟨(h 0).2.2.2 (by decide) (by decide),
         (h 10).2.2.2 (by decide) (by decide),
         (h 24).2.2.2 (by decide) (by decide),
         (h 25).2.2.1 (by decide) (by decide) (by decide),
         (h 29).2.2.1 (by decide) (by decide) (by decide),
         ((h 30).2.1 (by decide) (by decide) (by decide)).1⟩

/-- Counterexample for C2: at 31 elapsed days with the appeal flag set and
status filed, check_and_appeal classifies the record as reminder, not as
waiting as the claim states. -/
theorem no_double_appeal_counterexample :
    (check_and_appeal none "05 October 2025"
      { status := some "filed", appeal_filed := some true } 31).action = "reminder"
    ∧ (check_and_appeal none "05 October 2025"
        { status := some "filed", appeal_filed := some true } 31).action ≠ "waiting" := by
  constructor <;> decide

/-- Claim C2 as amended: once the appeal flag is set, an unanswered record at
30 or more days never yields first_appeal again and carries no appeal draft,
but it is classified as reminder (the 25-day tier), not as waiting. -/
theorem no_double_appeal (gen : Option String) (ad : String)
    (record : RTIRecord) (d : Int)
    (hs : record.status.getD "filed" ≠ "response_received")
    (h30 : 30 ≤ d) (ha : optTruthy record.appeal_filed = true) :
    (check_and_appeal gen ad record d).action = "reminder"
    ∧ (check_and_appeal gen ad record d).action ≠ "first_appeal"
    ∧ (check_and_appeal gen ad record d).appeal_draft = none := by
  have h25 : 25 ≤ d := by omega
  refine ⟨?_, ?_, ?_⟩ <;> simp [check_and_appeal, hs, ha, h25]

/-- Witness for C2 amended: a concrete appealed record at 31 days. -/
theorem no_double_appeal_witness :
    (check_and_appeal none "06 October 2025"
      { status := some "filed", appeal_filed := some true } 31).action = "reminder"
    ∧ (check_and_appeal none "06 October 2025"
        { status := some "filed", appeal_filed := some true } 31).action ≠ "first_appeal"
    ∧ (check_and_appeal none "06 October 2025"
        { status := some "filed", appeal_filed := some true } 31).appeal_draft = none :=
  no_double_appeal none "06 October 2025"
    { status := some "filed", appeal_filed := some true } 31
    (by decide) (by decide) (by decide)

/-- Claim C6: with the external generator failing on every call, an
unanswered unappealed record at 30 or more days still yields a first_appeal
decision whose draft is exactly the deterministic template filled from the
record fields, and that draft is a non-empty string. -/
theorem fallback_non_failure (ad : String) (record : RTIRecord) (d : Int)
    (hs : record.status.getD "filed" ≠ "response_received")
    (h30 : 30 ≤ d) (ha : optTruthy record.appeal_filed = false) :
    (check_and_appeal none ad record d).action = "first_appeal"
    ∧ (check_and_appeal none ad record d).appeal_draft =
        some (first_appeal_fill (record.department.getD "Concerned Department")
          "India" (record.applicant_name.getD "Applicant")
          (String.mk ((record.filed_at.getD "").data.take 10))
          (record.ref_number.getD "") (record.subject.getD "the matter") ad)
    ∧ (check_and_appeal none ad record d).appeal_draft ≠ some "" := by
  refine ⟨?_, ?_, ?_⟩
  · simp [check_and_appeal, hs, h30, ha]
  · simp [check_and_appeal, hs, h30, ha, generate_first_appeal]
  · have hred : (check_and_appeal none ad record d).appeal_draft
        = some (generate_first_appeal none ad record) := by
      simp [check_and_appeal, hs, h30, ha]
    rw [hred]
    intro hdraft
    rw [Option.some.injEq] at hdraft
    have hlen := congrArg String.length hdraft
    simp only [generate_first_appeal, first_appeal_fill, String.length_append] at hlen
    have h1 : ("To,\nThe First Appellate Authority,\n" : String).length = 35 := rfl
    have h0 : ("" : String).length = 0 := rfl
    omega

/-- Witness for C6: a concrete 31-day-old filed record with the generator
failing. -/
theorem fallback_non_failure_witness :
    (check_and_appeal none "05 October 2025"
      { ref_number := some "RTI2024-00001", status := some "filed",
        filed_at := some "2024-01-01T00:00:00", department := some "Food Department",
        subject := some "Ration card status", applicant_name := some "A Citizen",
        appeal_filed := some false } 31).action = "first_appeal"
    ∧ (check_and_appeal none "05 October 2025"
        { ref_number := some "RTI2024-00001", status := some "filed",
          filed_at := some "2024-01-01T00:00:00", department := some "Food Department",
          subject := some "Ration card status", applicant_name := some "A Citizen",
          appeal_filed := some false } 31).appeal_draft ≠ some "" := by
  have h := fallback_non_failure "05 October 2025"
    { ref_number := some "RTI2024-00001", status := some "filed",
      filed_at := some "2024-01-01T00:00:00", department := some "Food Department",
      subject := some "Ration card status", applicant_name := some "A Citizen",
      appeal_filed := some false } 31 (by decide) (by decide) (by decide)
  exact ⟨h.1, h.2.2⟩

/-- Claim C7: the alias resolver is the identity on every canonical region
name of the directory state table, and hence idempotent there, for any
directory. -/
theorem alias_idempotence (dir : PioDirectory) (x : String)
    (hx : x ∈ canonicalStateNames) :
    _normalize_state dir x = x
    ∧ _normalize_state dir (_normalize_state dir x) = _normalize_state dir x := by
  fin_cases hx <;> exact ⟨rfl, rfl⟩

/-- Witness for C7: resolving Kerala returns Kerala, idempotently. -/
theorem alias_idempotence_witness :
    _normalize_state modelledDirectory "Kerala" = "Kerala"
    ∧ _normalize_state modelledDirectory (_normalize_state modelledDirectory "Kerala") =
        _normalize_state modelledDirectory "Kerala" :=
  alias_idempotence modelledDirectory "Kerala" (by decide)

/-- Counterexample for C8: a whitespace-only location is empty after
trimming, yet the resolver returns the empty string (the title-cased trimmed
input), not Delhi. -/
theorem whitespace_location_counterexample :
    _normalize_state modelledDirectory " " ≠ "Delhi"
    ∧ _normalize_state modelledDirectory " " = "" := by
  constructor <;> decide

/-- Claim C8 as amended: only a genuinely empty (falsy) location input
resolves to the Delhi default; a whitespace-only input is not caught by the
emptiness test and falls through. -/
theorem empty_location_default (dir : PioDirectory) :
    _normalize_state dir "" = "Delhi" :=
  rfl

/-- Claim C9: the reference number is the RTI prefix, the current year
(4 digits for any current year), a dash, and the store record count plus one
zero-padded to at least five digits; with no intervening insert (an equal
count) the generated number is identical, so uniqueness rests on
serializing count-then-insert. -/
theorem ref_number_format (year count : Nat)
    (hy : (toString year).length = 4) :
    ∃ k, generate_ref_number year count =
        "RTI" ++ toString year ++ "-" ++
          (String.mk (List.replicate k '0') ++ toString (count + 1))
      ∧ 5 ≤ (String.mk (List.replicate k '0') ++ toString (count + 1)).length
      ∧ (generate_ref_number year count).length =
          4 + (String.mk (List.replicate k '0') ++ toString (count + 1)).length + 4
      ∧ ∀ count2, count2 = count →
          generate_ref_number year count2 = generate_ref_number year count := by
  refine ⟨5 - (toString (count + 1)).length, rfl, ?_, ?_, ?_⟩
  · simp only [String.length_append, String.length_mk, List.length_replicate]
    omega
  · simp only [generate_ref_number, pad5, String.length_append, String.length_mk,
      List.length_replicate, hy]
    have h3 : ("RTI" : String).length = 3 := rfl
    have hd : ("-" : String).length = 1 := rfl
    omega
  · intro c2 h
    rw [h]

/-- Witness for C9: year 2026 with 41 stored records yields RTI2026-00042. -/
theorem ref_number_format_witness :
    ∃ k, generate_ref_number 2026 41 =
        "RTI" ++ toString (2026 : Nat) ++ "-" ++
          (String.mk (List.replicate k '0') ++ toString (41 + 1))
      ∧ 5 ≤ (String.mk (List.replicate k '0') ++ toString (41 + 1)).length
      ∧ (generate_ref_number 2026 41).length =
          4 + (String.mk (List.replicate k '0') ++ toString (41 + 1)).length + 4
      ∧ ∀ count2, count2 = 41 →
          generate_ref_number 2026 count2 = generate_ref_number 2026 41 :=
  ref_number_format 2026 41 (by rfl)

/-- Claim C3: for every query analysis (any category, any garbage
jurisdiction hint) and any fee flag, route returns a decision carrying an
office drawn from the directory, provided the central office list is
non-empty; no input reaches an error path. -/
theorem routing_totality (dir : PioDirectory) (deps : Departments)
    (qa : QueryAnalysis) (user_state : String) (hc : dir.central ≠ []) :
    ∃ dec, route dir deps qa user_state = some dec ∧
      (dec.pio ∈ dir.central ∨ ∃ pr ∈ dir.state, dec.pio ∈ pr.2) := by
  obtain ⟨pio, hp, hmem⟩ := find_pio_mem dir deps (qa.category.getD "other")
    (resolved_state dir qa user_state) hc
  refine ⟨{ pio := pio
            department := pio.department
            filing_url := pio.portal.getD "https://rtionline.gov.in"
            category := qa.category.getD "other"
            jurisdiction := if pyStarts pio.id "C" then "central" else "state"
            filing_fee := if optTruthy qa.is_bpl then 0
                          else deps.filing_fee_general.getD 10 }, ?_, ?_⟩
  · rw [route_eq, hp]
    rfl
  · exact hmem

/-- Witness for C3: an unknown category and a garbage jurisdiction still
route to a directory office on the modelled directory. -/
theorem routing_totality_witness :
    ∃ dec, route modelledDirectory modelledDepartments
        (_fallback_response "garbage question" "parse error") "Atlantis" = some dec ∧
      (dec.pio ∈ modelledDirectory.central ∨
        ∃ pr ∈ modelledDirectory.state, dec.pio ∈ pr.2) :=
  routing_totality modelledDirectory modelledDepartments
    (_fallback_response "garbage question" "parse error") "Atlantis" (by decide)

/-- Claim C4: for a region-local category, when the resolved jurisdiction has
a registered state office whose tag string contains a configured keyword,
route selects an office from the list of that region, and since state office
identifiers do not start with the central marker C, the decision is
classified state. -/
theorem region_preference (dir : PioDirectory) (deps : Departments)
    (qa : QueryAnalysis) (user_state category : String) (pios : List PioRecord)
    (hq : qa.category = some category)
    (hcat : category ∈ STATE_SUBJECTS)
    (hlk : lookupA dir.state (resolved_state dir qa user_state) = some pios)
    (hmatch : ∃ p ∈ pios, ∃ kw ∈ keywordsOf deps category,
      pySubstr kw (joinedCats p) = true)
    (hC : ∀ p ∈ pios, pyStarts p.id "C" = false) :
    ∃ dec, route dir deps qa user_state = some dec ∧ dec.pio ∈ pios ∧
      dec.jurisdiction = "state" := by
  have hcat2 : STATE_SUBJECTS.contains category = true := List.elem_iff.mpr hcat
  have hne : pios ≠ [] := by
    rintro rfl
    obtain ⟨p, hp, -⟩ := hmatch
    exact (List.not_mem_nil p) hp
  have hsp : statePios dir (resolved_state dir qa user_state) = pios := by
    unfold statePios
    rw [hlk]
    rfl
  have hfind : ∃ q, pios.find? (catsMatch (keywordsOf deps category) category)
      = some q := by
    have hsome : (pios.find? (catsMatch (keywordsOf deps category) category)).isSome := by
      rw [List.find?_isSome]
      obtain ⟨p, hp, kw, hkw, hsub⟩ := hmatch
      refine ⟨p, hp, ?_⟩
      unfold catsMatch
      rw [Bool.or_eq_true, List.any_eq_true]
      exact Or.inl ⟨kw, hkw, hsub⟩
    exact Option.isSome_iff_exists.mp hsome
  obtain ⟨q, hqf⟩ := hfind
  have hqmem : q ∈ pios := List.mem_of_find?_eq_some hqf
  have hfp : _find_pio dir deps category (resolved_state dir qa user_state)
      = some q := by
    unfold _find_pio
    rw [if_pos ⟨hcat2, by rw [hsp]; exact hne⟩, hsp, hqf]
  refine ⟨{ pio := q
            department := q.department
            filing_url := q.portal.getD "https://rtionline.gov.in"
            category := category
            jurisdiction := if pyStarts q.id "C" then "central" else "state"
            filing_fee := if optTruthy qa.is_bpl then 0
                          else deps.filing_fee_general.getD 10 }, ?_, hqmem, ?_⟩
  · rw [route_eq, hq]
    simp only [Option.getD_some]
    rw [hfp]
    rfl
  · have hqc := hC q hqmem
    show (if pyStarts q.id "C" then "central" else "state") = "state"
    simp [hqc]

/-- Witness for C4: food_ration routed with a Trivandrum hint lands on the
Kerala rations office, classified state. -/
theorem region_preference_witness :
    ∃ dec, route modelledDirectory modelledDepartments
        { category := some "food_ration" } "Trivandrum" = some dec ∧
      dec.pio ∈
        [{ id := "KL-FCS-01"
           department := "Kerala Food and Civil Supplies Department"
           categories := ["Ration", "PDS", "Food Security"]
           portal := some "https://foodsafety.kerala.gov.in" },
         { id := "KL-PWD-01"
           department := "Kerala Public Works Department"
           categories := ["Roads", "Bridges"]
           portal := none }] ∧
      dec.jurisdiction = "state" :=
  region_preference modelledDirectory modelledDepartments
    { category := some "food_ration" } "Trivandrum" "food_ration"
    [{ id := "KL-FCS-01"
       department := "Kerala Food and Civil Supplies Department"
       categories := ["Ration", "PDS", "Food Security"]
       portal := some "https://foodsafety.kerala.gov.in" },
     { id := "KL-PWD-01"
       department := "Kerala Public Works Department"
       categories := ["Roads", "Bridges"]
       portal := none }]
    rfl (by decide) (by decide) (by decide) (by decide)

/-- Claim C5: the filing fee of every routing decision is 0 when the is_bpl
flag of the query analysis is truthy and the configured general fee (default
10) when it is not. -/
theorem fee_exemption (dir : PioDirectory) (deps : Departments)
    (qa : QueryAnalysis) (user_state : String) (dec : RoutingDecision)
    (h : route dir deps qa user_state = some dec) :
    (optTruthy qa.is_bpl = true → dec.filing_fee = 0)
    ∧ (optTruthy qa.is_bpl = false →
        dec.filing_fee = deps.filing_fee_general.getD 10) := by
  have hf := route_fee dir deps qa user_state dec h
  constructor
  · intro hb
    rw [hf, if_pos hb]
  · intro hb
    rw [hf, if_neg (by simp [hb])]

/-- Witness for C5: a BPL applicant routing railways pays no fee. -/
theorem fee_exemption_witness :
    route modelledDirectory modelledDepartments
      { category := some "railways", is_bpl := some true } "Delhi" =
      some
        { pio :=
            { id := "C001"
              department := "Ministry of Railways"
              categories := ["Railways", "Trains", "IRCTC"]
              portal := some "https://rtionline.gov.in" }
          department := "Ministry of Railways"
          filing_url := "https://rtionline.gov.in"
          category := "railways"
          jurisdiction := "central"
          filing_fee := 0 }
    ∧ (0 : Nat) = 0 := by
  have h : route modelledDirectory modelledDepartments
      { category := some "railways", is_bpl := some true } "Delhi" =
      some
        { pio :=
            { id := "C001"
              department := "Ministry of Railways"
              categories := ["Railways", "Trains", "IRCTC"]
              portal := some "https://rtionline.gov.in" }
          department := "Ministry of Railways"
          filing_url := "https://rtionline.gov.in"
          category := "railways"
          jurisdiction := "central"
          filing_fee := 0 } := by rfl
  have hfee := (fee_exemption modelledDirectory modelledDepartments
    { category := some "railways", is_bpl := some true } "Delhi" _ h).1 (by decide)
  exact ⟨h, hfee ▸ rfl⟩

/-- Claim C10: route reads the fee exemption only from the is_bpl key of the
query analysis; the query agent fallback sets no such key, so any filing
routed through the fallback analysis pays the general fee (10 on the
modelled configuration), whatever BPL status the applicant supplied
elsewhere. -/
theorem bpl_flag_only_from_query_analysis :
    (∀ q e, (_fallback_response q e).is_bpl = none)
    ∧ (∀ (dir : PioDirectory) (deps : Departments) (qa : QueryAnalysis)
        (st : String) (dec : RoutingDecision),
        (qa.is_bpl = none ∨ qa.is_bpl = some false) →
        route dir deps qa st = some dec →
        dec.filing_fee = deps.filing_fee_general.getD 10)
    ∧ (∀ (dir : PioDirectory) (q e st : String) (dec : RoutingDecision),
        route dir modelledDepartments (_fallback_response q e) st = some dec →
        dec.filing_fee = 10) := by
  refine ⟨fun q e => rfl, ?_, ?_⟩
  · intro dir deps qa st dec hb h
    have hf := route_fee dir deps qa st dec h
    have hfalse : optTruthy qa.is_bpl = false := by
      rcases hb with h0 | h0 <;> rw [h0] <;> rfl
    rw [hf, if_neg (by simp [hfalse])]
  · intro dir q e st dec h
    have hf := route_fee dir modelledDepartments (_fallback_response q e) st dec h
    have hfalse : optTruthy (_fallback_response q e).is_bpl = false := rfl
    rw [hf, if_neg (by simp [hfalse])]
    rfl

/-- Witness for C10: a filing that went through the query agent fallback is
charged the general fee of 10 even though the applicant may be BPL. -/
theorem bpl_flag_only_witness :
    route modelledDirectory modelledDepartments
      (_fallback_response "Where is my ration card" "generator unavailable")
      "Kerala" =
      some
        { pio :=
            { id := "C009"
              department := "Department of Food and Public Distribution"
              categories := ["Food", "Ration", "PDS"]
              portal := none }
          department := "Department of Food and Public Distribution"
          filing_url := "https://rtionline.gov.in"
          category := "other"
          jurisdiction := "central"
          filing_fee := 10 }
    ∧ (10 : Nat) = 10 := by
  have h : route modelledDirectory modelledDepartments
      (_fallback_response "Where is my ration card" "generator unavailable")
      "Kerala" =
      some
        { pio :=
            { id := "C009"
              department := "Department of Food and Public Distribution"
              categories := ["Food", "Ration", "PDS"]
              portal := none }
          department := "Department of Food and Public Distribution"
          filing_url := "https://rtionline.gov.in"
          category := "other"
          jurisdiction := "central"
          filing_fee := 10 } := by rfl
  have hfee := bpl_flag_only_from_query_analysis.2.2 modelledDirectory
    "Where is my ration card" "generator unavailable" "Kerala" _ h
  exact ⟨h, hfee ▸ rfl⟩

end RTI
